import Mathlib

/-!
RationelMind — verification of the response-parsing and rendering contract

Shallow embedding of `src/app.py` (the single source file of the
`venusflytrapfairy/RationelMind` repository).  The script's verifiable core is

* `clean_and_parse_json` (app.py lines 71-75): a regex-based JSON extraction
  (`re.search(r'\x7b[\s\S]*\x7d', text)`) followed by `json.loads`;
* the rendering block (app.py lines 118-183): a sequence of `st.header` /
  `st.markdown` calls walking the parsed dictionary with `.get`-chains and
  `or`-fallbacks;
* the "Generate Intelligence Report" button handler (app.py lines 88-103):
  upload-count validation and the combined-corpus / prompt construction.

Python values decoded from JSON are modelled by the inductive type `Json`
(numbers as integers: no claim involves fractional literals, which are outside
this model).  Python dictionaries are association lists; `dict.get`,
truthiness, `x or y`, `str()` formatting and `json.dumps` are modelled
explicitly.  Fallible steps return `Except`/`Option`.
-/

/-- A decoded JSON value (the result of Python's `json.loads`).
Numbers are modelled as integers. -/
inductive Json where
  | null
  | bool (b : Bool)
  | num (n : Int)
  | str (s : String)
  | arr (elems : List Json)
  | obj (fields : List (String × Json))

/-- Python dictionary lookup.  CPython's `json.loads` keeps the *last*
occurrence of a duplicated key, so lookup prefers the rightmost binding. -/
def pyLookup : List (String × Json) → String → Option Json
  | [], _ => none
  | (k', v) :: rest, k =>
    match pyLookup rest k with
    | some w => some w
    | none => if k' = k then some v else none

/-- Python truthiness (`bool(x)`) of a decoded JSON value. -/
def pyTruthy : Json → Bool
  | .null => false
  | .bool b => b
  | .num n => n != 0
  | .str s => s != ""
  | .arr l => !l.isEmpty
  | .obj l => !l.isEmpty

/-- Python `x or y` on decoded JSON values. -/
def pyOr (a b : Json) : Json := if pyTruthy a then a else b

/-- Characters stripped by Python `str.strip()` (the ASCII whitespace set). -/
def pyIsSpaceChar (c : Char) : Bool :=
  c = ' ' || c = '\t' || c = '\n' || c = '\r' || c = '\x0b' || c = '\x0c'

/-- Python `s.strip()`. -/
def pyStrip (s : String) : String :=
  ⟨((s.toList.dropWhile pyIsSpaceChar).reverse.dropWhile pyIsSpaceChar).reverse⟩

/-- Python slicing `s[:n]` (by code point, as CPython does). -/
def pySliceTo (s : String) (n : Nat) : String := ⟨s.toList.take n⟩

/-! Python `repr` / `str` formatting (used by f-string interpolation) -/

/-- Escapes used inside a Python string `repr` delimited by `q`. -/
def pyReprEscapeChar (q : Char) (c : Char) : String :=
  if c = '\\' then "\\\\"
  else if c = q then "\\" ++ String.singleton q
  else if c = '\n' then "\\n"
  else if c = '\r' then "\\r"
  else if c = '\t' then "\\t"
  else String.singleton c

/-- Python `repr` of a string: single quotes, unless the string contains a
single quote and no double quote. -/
def pyReprStr (s : String) : String :=
  if s.toList.contains '\x27' && !s.toList.contains '"' then
    "\"" ++ String.join (s.toList.map (pyReprEscapeChar '"')) ++ "\""
  else
    "'" ++ String.join (s.toList.map (pyReprEscapeChar '\x27')) ++ "'"

mutual

/-- Python `repr` of a decoded JSON value. -/
def pyRepr : Json → String
  | .null => "None"
  | .bool true => "True"
  | .bool false => "False"
  | .num n => toString n
  | .str s => pyReprStr s
  | .arr l => "[" ++ pyReprJoin l ++ "]"
  | .obj l => "\x7b" ++ pyReprFieldsJoin l ++ "\x7d"

/-- Comma-joined `repr`s of list elements. -/
def pyReprJoin : List Json → String
  | [] => ""
  | [x] => pyRepr x
  | x :: y :: xs => pyRepr x ++ ", " ++ pyReprJoin (y :: xs)

/-- Comma-joined `repr`s of dictionary entries. -/
def pyReprFieldsJoin : List (String × Json) → String
  | [] => ""
  | [(k, v)] => pyReprStr k ++ ": " ++ pyRepr v
  | (k, v) :: y :: xs => pyReprStr k ++ ": " ++ pyRepr v ++ ", " ++ pyReprFieldsJoin (y :: xs)

end

/-- Python `str()` of a decoded JSON value, as interpolated by an f-string. -/
def pyStr : Json → String
  | .str s => s
  | j => pyRepr j

/-! `json.dumps` (default arguments: `ensure_ascii=True`, separators `", "` and `": "`) -/

/-- One lowercase hex digit. -/
def hexDigit (n : Nat) : Char :=
  if n < 10 then Char.ofNat (48 + n) else Char.ofNat (87 + n)

/-- Four-digit lowercase hex, as in `\uXXXX` escapes. -/
def hex4 (n : Nat) : String :=
  ⟨[hexDigit (n / 4096 % 16), hexDigit (n / 256 % 16), hexDigit (n / 16 % 16), hexDigit (n % 16)]⟩

/-- The `json.dumps` escaping of one character (`ensure_ascii=True`: everything
outside `' '..'~'` becomes a `\uXXXX` escape, astral characters a surrogate
pair). -/
def jsonDumpsChar (c : Char) : String :=
  if c = '"' then "\\\""
  else if c = '\\' then "\\\\"
  else if c = '\n' then "\\n"
  else if c = '\t' then "\\t"
  else if c = '\r' then "\\r"
  else if c = '\x08' then "\\b"
  else if c = '\x0c' then "\\f"
  else if c.toNat < 32 || c.toNat > 126 then
    if c.toNat < 65536 then "\\u" ++ hex4 c.toNat
    else
      let n := c.toNat - 65536
      "\\u" ++ hex4 (55296 + n / 1024) ++ "\\u" ++ hex4 (56320 + n % 1024)
  else String.singleton c

mutual

/-- Python `json.dumps` with default arguments. -/
def json_dumps : Json → String
  | .null => "null"
  | .bool true => "true"
  | .bool false => "false"
  | .num n => toString n
  | .str s => "\"" ++ String.join (s.toList.map jsonDumpsChar) ++ "\""
  | .arr l => "[" ++ jsonDumpsJoin l ++ "]"
  | .obj l => "\x7b" ++ jsonDumpsFieldsJoin l ++ "\x7d"

/-- Comma-joined dumps of list elements. -/
def jsonDumpsJoin : List Json → String
  | [] => ""
  | [x] => json_dumps x
  | x :: y :: xs => json_dumps x ++ ", " ++ jsonDumpsJoin (y :: xs)

/-- Comma-joined dumps of dictionary entries. -/
def jsonDumpsFieldsJoin : List (String × Json) → String
  | [] => ""
  | [(k, v)] => "\"" ++ String.join (k.toList.map jsonDumpsChar) ++ "\": " ++ json_dumps v
  | (k, v) :: y :: xs =>
    "\"" ++ String.join (k.toList.map jsonDumpsChar) ++ "\": " ++ json_dumps v ++ ", " ++
      jsonDumpsFieldsJoin (y :: xs)

end

/-! `json.loads` — a strict recursive-descent JSON parser

Faithful to CPython's `json.loads` on the integer fragment of JSON:
objects, arrays, double-quoted strings with escapes, `true`/`false`/`null`,
integer literals (no leading zeros), JSON whitespace, and a required
end-of-input after the single top-level value.  Fractional and exponent
number forms are outside the model (no claim involves them). -/

/-- JSON whitespace accepted between tokens. -/
def jsonWs (c : Char) : Bool := c = ' ' || c = '\t' || c = '\n' || c = '\r'

/-- Drop leading JSON whitespace. -/
def skipWs : List Char → List Char
  | c :: cs => if jsonWs c then skipWs cs else c :: cs
  | [] => []

/-- Consume an expected literal tail (e.g. `rue` after `t`). -/
def stripLit : List Char → List Char → Option (List Char)
  | [], cs => some cs
  | e :: es, c :: cs => if c = e then stripLit es cs else none
  | _ :: _, [] => none

/-- Value of one hexadecimal digit, if the character is one. -/
def hexVal (c : Char) : Option Nat :=
  if c.isDigit then some (c.toNat - 48)
  else if 'a' ≤ c && c ≤ 'f' then some (c.toNat - 87)
  else if 'A' ≤ c && c ≤ 'F' then some (c.toNat - 55)
  else none

/-- Parse the body of a JSON string after the opening quote; `acc` holds the
decoded characters in reverse. -/
def parseStrAux (acc : List Char) : List Char → Option (List Char × List Char)
  | '"' :: cs => some (acc.reverse, cs)
  | '\\' :: c :: cs =>
    if c = '"' then parseStrAux ('"' :: acc) cs
    else if c = '\\' then parseStrAux ('\\' :: acc) cs
    else if c = '/' then parseStrAux ('/' :: acc) cs
    else if c = 'b' then parseStrAux ('\x08' :: acc) cs
    else if c = 'f' then parseStrAux ('\x0c' :: acc) cs
    else if c = 'n' then parseStrAux ('\n' :: acc) cs
    else if c = 'r' then parseStrAux ('\r' :: acc) cs
    else if c = 't' then parseStrAux ('\t' :: acc) cs
    else if c = 'u' then
      match cs with
      | h1 :: h2 :: h3 :: h4 :: cs' =>
        match hexVal h1, hexVal h2, hexVal h3, hexVal h4 with
        | some v1, some v2, some v3, some v4 =>
          parseStrAux (Char.ofNat (v1 * 4096 + v2 * 256 + v3 * 16 + v4) :: acc) cs'
        | _, _, _, _ => none
      | _ => none
    else none
  | c :: cs => if c.toNat < 32 then none else parseStrAux (c :: acc) cs
  | [] => none

/-- Take a maximal run of decimal digits. -/
def takeDigits : List Char → List Char × List Char
  | c :: cs =>
    if c.isDigit then
      let (d, r) := takeDigits cs
      (c :: d, r)
    else ([], c :: cs)
  | [] => ([], [])

/-- Decimal value of a digit run. -/
def digitsToNat (ds : List Char) : Nat :=
  ds.foldl (fun a c => a * 10 + (c.toNat - 48)) 0

/-- Parse an unsigned JSON integer (`0` or a nonzero-leading digit run,
matching the JSON grammar `0|[1-9][0-9]*`). -/
def parseUNum : List Char → Option (Nat × List Char)
  | '0' :: cs => some (0, cs)
  | c :: cs =>
    if c.isDigit then
      let (d, r) := takeDigits cs
      some (digitsToNat (c :: d), r)
    else none
  | [] => none

/-- Parse a signed JSON integer token. -/
def parseNumTok : List Char → Option (Int × List Char)
  | '-' :: cs => (parseUNum cs).map (fun p => (-(p.1 : Int), p.2))
  | cs => (parseUNum cs).map (fun p => ((p.1 : Int), p.2))

/-- Expect a `:` (with surrounding whitespace) between a key and a value. -/
def expectColon (cs : List Char) : Option (List Char) :=
  match skipWs cs with
  | ':' :: rest => some rest
  | _ => none

mutual

/-- Parse one JSON value (after optional leading whitespace).  `fuel` bounds
the recursion depth; `json_loads` supplies more fuel than any input can
consume. -/
def parseValue : Nat → List Char → Option (Json × List Char)
  | 0, _ => none
  | fuel + 1, cs =>
    match skipWs cs with
    | [] => none
    | '\x7b' :: rest => parseObjRest fuel rest
    | '[' :: rest => parseArrRest fuel rest
    | '"' :: rest => (parseStrAux [] rest).map (fun p => (Json.str ⟨p.1⟩, p.2))
    | 't' :: rest => (stripLit ['r', 'u', 'e'] rest).map (fun r => (Json.bool true, r))
    | 'f' :: rest => (stripLit ['a', 'l', 's', 'e'] rest).map (fun r => (Json.bool false, r))
    | 'n' :: rest => (stripLit ['u', 'l', 'l'] rest).map (fun r => (Json.null, r))
    | cs' => (parseNumTok cs').map (fun p => (Json.num p.1, p.2))

/-- Parse the remainder of an array after `[`. -/
def parseArrRest : Nat → List Char → Option (Json × List Char)
  | 0, _ => none
  | fuel + 1, cs =>
    match skipWs cs with
    | ']' :: rest => some (Json.arr [], rest)
    | cs' => do
      let (v, r) ← parseValue fuel cs'
      let (vs, r') ← parseArrTail fuel r
      pure (Json.arr (v :: vs), r')

/-- Parse `, value`* `]` after one array element. -/
def parseArrTail : Nat → List Char → Option (List Json × List Char)
  | 0, _ => none
  | fuel + 1, cs =>
    match skipWs cs with
    | ',' :: rest => do
      let (v, r) ← parseValue fuel rest
      let (vs, r') ← parseArrTail fuel r
      pure (v :: vs, r')
    | ']' :: rest => some ([], rest)
    | _ => none

/-- Parse the remainder of an object after the opening brace. -/
def parseObjRest : Nat → List Char → Option (Json × List Char)
  | 0, _ => none
  | fuel + 1, cs =>
    match skipWs cs with
    | '\x7d' :: rest => some (Json.obj [], rest)
    | '"' :: rest => do
      let (k, r) ← parseStrAux [] rest
      let r1 ← expectColon r
      let (v, r2) ← parseValue fuel r1
      let (kvs, r3) ← parseObjTail fuel r2
      pure (Json.obj ((String.mk k, v) :: kvs), r3)
    | _ => none

/-- Parse `, "key": value`* and the closing brace after one object member. -/
def parseObjTail : Nat → List Char → Option (List (String × Json) × List Char)
  | 0, _ => none
  | fuel + 1, cs =>
    match skipWs cs with
    | ',' :: rest =>
      match skipWs rest with
      | '"' :: rest' => do
        let (k, r) ← parseStrAux [] rest'
        let r1 ← expectColon r
        let (v, r2) ← parseValue fuel r1
        let (kvs, r3) ← parseObjTail fuel r2
        pure ((String.mk k, v) :: kvs, r3)
      | _ => none
    | '\x7d' :: rest => some ([], rest)
    | _ => none

end

/-- Python `json.loads`: parse exactly one JSON document, requiring only
whitespace after it. -/
def json_loads (s : String) : Option Json :=
  match parseValue (s.length + 1) s.toList with
  | some (v, rest) => if skipWs rest = [] then some v else none
  | none => none

/-! `clean_and_parse_json` (app.py lines 71-75)

`re.search(r'\x7b[\s\S]*\x7d', response_text)` matches iff some `\x7d` occurs
strictly after the first `\x7b`; the match then spans from the first `\x7b` to
the *last* `\x7d` in the text (leftmost match start, greedy `[\s\S]*`). -/

/-- Index of the first occurrence of a character. -/
def firstIdx : List Char → Char → Option Nat
  | [], _ => none
  | c :: cs, t => if c = t then some 0 else (firstIdx cs t).map (· + 1)

/-- Index of the last occurrence of a character. -/
def lastIdx (cs : List Char) (t : Char) : Option Nat :=
  (firstIdx cs.reverse t).map (fun k => cs.length - 1 - k)

/-- The substring captured by `re.search(r'\x7b[\s\S]*\x7d', s)`, when the
regex matches: from the first `\x7b` to the last `\x7d`. -/
def extractSpan (s : String) : Option String :=
  match firstIdx s.toList '\x7b', lastIdx s.toList '\x7d' with
  | some i, some j =>
    if i < j then some ⟨(s.toList.drop i).take (j - i + 1)⟩ else none
  | _, _ => none

/-- Failures of `clean_and_parse_json`, as the spec's error taxonomy names
them.  `noJsonFound` is the `ValueError` of app.py line 74 and carries its
message, which embeds the first 500 characters of the reply.  `malformedJson`
is the `json.JSONDecodeError` raised by `json.loads` on app.py line 75 and
carries the exception's `doc` attribute: the text that was being parsed (the
stripped span).  Its `str()` — what line 186 surfaces — is only a
position/description message and contains no part of the reply. -/
inductive ExtractError where
  | noJsonFound (message : String)
  | malformedJson (doc : String)

/-- The `ValueError` message of app.py line 74. -/
def noJsonMsg (response_text : String) : String :=
  "No valid JSON found in response. RAW (first 500 chars):\n" ++ pySliceTo response_text 500

/-- app.py lines 71-75: locate the brace span, strip it, and `json.loads` it. -/
def clean_and_parse_json (response_text : String) : Except ExtractError Json :=
  match extractSpan response_text with
  | none => .error (.noJsonFound (noJsonMsg response_text))
  | some g =>
    match json_loads (pyStrip g) with
    | some v => .ok v
    | none => .error (.malformedJson (pyStrip g))

/-! The rendering block (app.py lines 118-183)

Each `st.header` / `st.markdown` / `components.html` call contributes one
string to the output list, in source order.  Attribute access on a non-dict
and iteration over a non-iterable raise, modelled by `Except`; on the
report-shaped inputs of the claims no error is reached. -/

/-- A Python runtime error reached by the rendering block. -/
inductive PyError where
  | attributeError
  | typeError

/-- Python `d.get(k, default)`: `AttributeError` when `d` is not a dict. -/
def pyGetD (j : Json) (k : String) (d : Json) : Except PyError Json :=
  match j with
  | .obj fields => .ok ((pyLookup fields k).getD d)
  | _ => .error .attributeError

/-- Python `d.get(k)` (default `None`). -/
def pyGet (j : Json) (k : String) : Except PyError Json :=
  pyGetD j k .null

/-- Python iteration (`for x in v`): lists yield elements, strings yield
one-character strings, dicts yield their keys; other values raise
`TypeError`. -/
def pyIter : Json → Except PyError (List Json)
  | .arr l => .ok l
  | .str s => .ok (s.toList.map (fun c => .str (String.singleton c)))
  | .obj fields => .ok (fields.map (fun p => .str p.1))
  | _ => .error .typeError

/-- The chain `item.get("filename") or item.get("paper") or "Unknown Paper"`
(app.py lines 126, 135 and 146 — the same expression at all three sites). -/
def resolve_filename (item : Json) : Except PyError Json := do
  let a ← pyGet item "filename"
  let b ← pyGet item "paper"
  pure (pyOr (pyOr a b) (.str "Unknown Paper"))

/-- The chain `item.get("unique") or item.get("constructs", [])` (app.py line 127). -/
def resolve_constructs (item : Json) : Except PyError Json := do
  let a ← pyGet item "unique"
  let b ← pyGetD item "constructs" (.arr [])
  pure (pyOr a b)

/-- Render each element of a list, concatenating the per-element lines
(a Python `for` loop whose body emits lines). -/
def renderEach (f : Json → Except PyError (List String)) :
    List Json → Except PyError (List String)
  | [] => .ok []
  | x :: xs => do
    let ls ← f x
    let rest ← renderEach f xs
    pure (ls ++ rest)

/-- Render each element of a list to a single line. -/
def renderLineEach (f : Json → Except PyError String) :
    List Json → Except PyError (List String)
  | [] => .ok []
  | x :: xs => do
    let l ← f x
    let rest ← renderLineEach f xs
    pure (l :: rest)

/-- Section 1 (app.py lines 119-121). -/
def renderShared (parsed_data : Json) : Except PyError (List String) := do
  let ca ← pyGetD parsed_data "construct_analysis" (.obj [])
  let shared ← pyGetD ca "shared" (.arr [])
  let items ← pyIter shared
  pure ("1. Shared Constructs" :: items.map (fun c => "- " ++ pyStr c))

/-- One `unique_by_paper` item (app.py lines 126-130). -/
def uniqueItemLines (item : Json) : Except PyError (List String) := do
  let filename ← resolve_filename item
  let constructs ← resolve_constructs item
  let us ← pyIter constructs
  pure (("**" ++ pyStr filename ++ "**") :: us.map (fun u => "- " ++ pyStr u))

/-- Section 2 (app.py lines 124-130). -/
def renderUnique (parsed_data : Json) : Except PyError (List String) := do
  let ca ← pyGetD parsed_data "construct_analysis" (.obj [])
  let ubp ← pyGetD ca "unique_by_paper" (.arr [])
  let items ← pyIter ubp
  let blocks ← renderEach uniqueItemLines items
  pure ("2. Unique Constructs by Paper" :: blocks)

/-- One `paper_summaries` item (app.py lines 135-139). -/
def summaryLines (paper : Json) : Except PyError (List String) := do
  let filename ← resolve_filename paper
  let authors ← pyGetD paper "authors" (.str "Unknown")
  let summary ← pyGetD paper "summary" (.str "No summary provided")
  let bias ← pyGetD paper "bias_assessment" (.obj [])
  let level ← pyGetD bias "level" (.str "Unknown")
  let biasJust ← pyGetD bias "justification" (.str "No justification")
  pure ["**" ++ pyStr filename ++ " (" ++ pyStr authors ++ ")**",
    "- Summary: " ++ pyStr summary,
    "- Bias: " ++ pyStr level ++ " (" ++ pyStr biasJust ++ ")"]

/-- Section 3 (app.py lines 133-139). -/
def renderSummaries (parsed_data : Json) : Except PyError (List String) := do
  let ps ← pyGetD parsed_data "paper_summaries" (.arr [])
  let items ← pyIter ps
  let blocks ← renderEach summaryLines items
  pure ("3. Paper Summaries & Bias Assessment" :: blocks)

/-- One stance line (app.py lines 146-147). -/
def stanceLine (stance : Json) : Except PyError String := do
  let filename ← resolve_filename stance
  let authors ← pyGetD stance "authors" (.str "Unknown")
  let stanceText ← pyGetD stance "stance" (.str "No stance")
  pure ("- " ++ pyStr filename ++ " (" ++ pyStr authors ++ "): " ++ pyStr stanceText)

/-- Section 4 (app.py lines 142-147). -/
def renderCausal (parsed_data : Json) : Except PyError (List String) := do
  let cc1 ← pyGetD parsed_data "causal_contradiction" (.obj [])
  let thesis ← pyGetD cc1 "central_thesis" (.str "Not provided")
  let cc2 ← pyGetD parsed_data "causal_contradiction" (.obj [])
  let stances ← pyGetD cc2 "stances" (.arr [])
  let items ← pyIter stances
  let stanceLines ← renderLineEach stanceLine items
  pure ("4. Causal Contradiction / Stances" ::
    ("**Central Thesis:** " ++ pyStr thesis) :: stanceLines)

/-- The `graph_html` f-string of app.py lines 151-168, with the two
`json.dumps` interpolations abstracted as arguments.  Literal braces appear
as their character codes. -/
def graph_html (nodes edges : String) : String :=
  "\n                <div id=\"graph-container\" style=\"width: 100%; height: 450px;\"></div>\n" ++
  "                <script type=\"text/javascript\" src=\"https://unpkg.com/vis-network/standalone/umd/vis-network.min.js\"></script>\n" ++
  "                <script>\n" ++
  "                    var nodes = new vis.DataSet(" ++ nodes ++ ");\n" ++
  "                    var edges = new vis.DataSet(" ++ edges ++ ");\n" ++
  "                    var container = document.getElementById(\x27graph-container\x27);\n" ++
  "                    var data = \x7b nodes: nodes, edges: edges \x7d;\n" ++
  "                    var options = \x7b\n" ++
  "                        layout: \x7b hierarchical: false \x7d,\n" ++
  "                        nodes: \x7b borderWidth: 2, font: \x7b size: 16 \x7d \x7d,\n" ++
  "                        edges: \x7b font: \x7b align: \x27middle\x27, size: 14 \x7d, arrows: \x27to\x27 \x7d,\n" ++
  "                        physics: \x7b solver: \x27barnesHut\x27, barnesHut: \x7b gravitationalConstant: -30000, centralGravity: 0.1, springLength: 300 \x7d \x7d,\n" ++
  "                        interaction: \x7b hover: true \x7d\n" ++
  "                    \x7d;\n" ++
  "                    new vis.Network(container, data, options);\n" ++
  "                </script>\n                "

/-- Section 5 (app.py lines 150-169): the `components.html` payload. -/
def renderGraph (parsed_data : Json) : Except PyError (List String) := do
  let cc1 ← pyGetD parsed_data "causal_contradiction" (.obj [])
  let g1 ← pyGetD cc1 "graph" (.obj [])
  let nodes ← pyGetD g1 "nodes" (.arr [])
  let cc2 ← pyGetD parsed_data "causal_contradiction" (.obj [])
  let g2 ← pyGetD cc2 "graph" (.obj [])
  let edges ← pyGetD g2 "edges" (.arr [])
  pure ["5. Visual Conflict Graph", graph_html (json_dumps nodes) (json_dumps edges)]

/-- Section 6 (app.py lines 172-178). -/
def renderReference (parsed_data : Json) : Except PyError (List String) := do
  let ref ← pyGetD parsed_data "reference_intelligence" (.obj [])
  let found ← pyGetD ref "recommendation_found" (.bool false)
  if pyTruthy found then do
    let title ← pyGetD ref "recommended_paper_title" (.str "")
    let just ← pyGetD ref "justification" (.str "")
    pure ["6. Reference Intelligence",
      "**Recommended Paper:** " ++ pyStr title, pyStr just]
  else
    pure ["6. Reference Intelligence",
      "No specific paper could be recommended from the references."]

/-- One multidisciplinary-connection line (app.py line 183). -/
def connectionLine (c : Json) : Except PyError String := do
  let f ← pyGetD c "field" (.str "Unknown")
  let conn ← pyGetD c "connection" (.str "No connection provided")
  pure ("- **" ++ pyStr f ++ "**: " ++ pyStr conn)

/-- Section 7 (app.py lines 181-183). -/
def renderConnections (parsed_data : Json) : Except PyError (List String) := do
  let mc ← pyGetD parsed_data "multidisciplinary_connections" (.arr [])
  let items ← pyIter mc
  let ls ← renderLineEach connectionLine items
  pure ("7. Multidisciplinary Connections" :: ls)

/-- The whole rendering block, app.py lines 118-183: the displayed strings in
source order. -/
def render (parsed_data : Json) : Except PyError (List String) := do
  let s1 ← renderShared parsed_data
  let s2 ← renderUnique parsed_data
  let s3 ← renderSummaries parsed_data
  let s4 ← renderCausal parsed_data
  let s5 ← renderGraph parsed_data
  let s6 ← renderReference parsed_data
  let s7 ← renderConnections parsed_data
  pure (s1 ++ s2 ++ s3 ++ s4 ++ s5 ++ s6 ++ s7)

/-! The "Generate Intelligence Report" handler (app.py lines 82-103) -/

/-- One uploaded PDF: its filename and the page texts the external
text-extraction collaborator (`fitz`) returns for it. -/
structure UploadedFile where
  name : String
  pageTexts : List String

/-- The slice `"".join(page.get_text() for page in doc)[:8000]` (app.py line 98):
the per-document text, truncated to 8000 characters. -/
def paper_text (f : UploadedFile) : String :=
  pySliceTo (String.join f.pageTexts) 8000

/-- The per-document corpus entry appended on app.py line 99. -/
def corpusEntry (f : UploadedFile) : String :=
  "--- Paper: " ++ f.name ++ " ---\n" ++ paper_text f ++ "\n\n"

/-- The `combined_text` accumulation (app.py lines 95-100). -/
def combined_text (files : List UploadedFile) : String :=
  files.foldl (fun acc f => acc ++ corpusEntry f) ""

/-- The substitution `PIPELINE_PROMPT.format(text=...)` (app.py lines 29-68 and 103): the
template has one substitution point; doubled braces of the template render as
single braces here. -/
def pipeline_prompt (text : String) : String :=
  "\nYou are a world-class AI research synthesizer. Your mission is to generate a deep analysis report with several intelligence components.\n\n" ++
  "**CRITICAL INSTRUCTIONS & OUTPUT FORMAT:**\n" ++
  "Return ONLY a single JSON object. Do not use markdown.\n\n" ++
  "1. Extract Core Information: identify key constructs and authors.\n" ++
  "2. Summarize & Assess Bias: summary + bias assessment.\n" ++
  "3. Analyze Causal Contradiction: central thesis, stances by paper, graph edges.\n" ++
  "4. Reference Intelligence: recommend one foundational cited paper.\n" ++
  "5. Multidisciplinary Connections: identify 2-3 other academic fields.\n\n" ++
  "**JSON OUTPUT FORMAT**:\n" ++
  "\x7b\n" ++
  "  \"construct_analysis\": \x7b\n" ++
  "    \"shared\": [],\n" ++
  "    \"unique_by_paper\": []\n" ++
  "  \x7d,\n" ++
  "  \"paper_summaries\": [],\n" ++
  "  \"causal_contradiction\": \x7b\n" ++
  "    \"central_thesis\": \"\",\n" ++
  "    \"stances\": [],\n" ++
  "    \"graph\": \x7b\n" ++
  "      \"nodes\": [],\n" ++
  "      \"edges\": []\n" ++
  "    \x7d\n" ++
  "  \x7d,\n" ++
  "  \"reference_intelligence\": \x7b\n" ++
  "    \"recommendation_found\": false,\n" ++
  "    \"recommended_paper_title\": \"\",\n" ++
  "    \"justification\": \"\"\n" ++
  "  \x7d,\n" ++
  "  \"multidisciplinary_connections\": []\n" ++
  "\x7d\n\n" ++
  "**Papers to Analyze:**\n---\n" ++ text ++ "\n---\n"

/-- What the button handler does before any remote interaction.  On fewer
than two uploads (app.py lines 89-90) it stops at
`st.error("Please upload at least 2 PDFs.")`: no file is read, no corpus or
prompt is built, and no model call is issued.  Otherwise (lines 92-111) it
reads the files, builds the corpus and prompt, and calls the model with it. -/
inductive AnalysisAction where
  | errorTooFew
  | callModel (prompt : String)

/-- app.py lines 88-103:  `st.file_uploader` yields `None` before any upload;
`if not uploaded_files or len(uploaded_files) < 2` treats `None` and the
empty list alike. -/
def generateReport (uploaded_files : Option (List UploadedFile)) : AnalysisAction :=
  match uploaded_files with
  | none => .errorTooFew
  | some files =>
    if files.isEmpty || files.length < 2 then .errorTooFew
    else .callModel (pipeline_prompt (combined_text files))

/-! Report-shaped JSON values

The spec's Report shape (§3), with every field independently optional, as a
family of record types.  `toJson` emits exactly the present keys, so a value
of `PReport` ranges over all Report-shaped JSON objects with any subset of
fields missing, at any nesting depth. -/

/-- A key that is present only when its value is. -/
def optField (k : String) : Option Json → List (String × Json)
  | none => []
  | some j => [(k, j)]

/-- The `bias_assessment` sub-object, fields optional. -/
structure PBias where
  level : Option String
  justification : Option String

/-- The `paper_summaries` item, fields optional. -/
structure PSummary where
  filename : Option String
  authors : Option String
  summary : Option String
  bias_assessment : Option PBias

/-- The `unique_by_paper` item, fields optional. -/
structure PUniqueItem where
  filename : Option String
  unique : Option (List String)

/-- The `stances` item, fields optional. -/
structure PStance where
  filename : Option String
  authors : Option String
  stance : Option String

/-- The `graph` sub-object; nodes and edges are opaque JSON values. -/
structure PGraph where
  nodes : Option (List Json)
  edges : Option (List Json)

/-- The `causal_contradiction` sub-object, fields optional. -/
structure PCausal where
  central_thesis : Option String
  stances : Option (List PStance)
  graph : Option PGraph

/-- The `reference_intelligence` sub-object, fields optional. -/
structure PRef where
  recommendation_found : Option Bool
  recommended_paper_title : Option String
  justification : Option String

/-- The `multidisciplinary_connections` item, fields optional. -/
structure PConnection where
  field : Option String
  connection : Option String

/-- The `construct_analysis` sub-object, fields optional. -/
structure PConstructs where
  shared : Option (List String)
  unique_by_paper : Option (List PUniqueItem)

/-- A Report-shaped JSON object with any subset of fields missing. -/
structure PReport where
  construct_analysis : Option PConstructs
  paper_summaries : Option (List PSummary)
  causal_contradiction : Option PCausal
  reference_intelligence : Option PRef
  multidisciplinary_connections : Option (List PConnection)

/-- JSON for a partial bias assessment. -/
def PBias.toJson (b : PBias) : Json :=
  .obj (optField "level" (b.level.map .str) ++
    optField "justification" (b.justification.map .str))

/-- JSON for a partial summaries item. -/
def PSummary.toJson (p : PSummary) : Json :=
  .obj (optField "filename" (p.filename.map .str) ++
    optField "authors" (p.authors.map .str) ++
    optField "summary" (p.summary.map .str) ++
    optField "bias_assessment" (p.bias_assessment.map PBias.toJson))

/-- JSON for a partial unique-constructs item. -/
def PUniqueItem.toJson (u : PUniqueItem) : Json :=
  .obj (optField "filename" (u.filename.map .str) ++
    optField "unique" (u.unique.map (fun l => .arr (l.map .str))))

/-- JSON for a partial stance item. -/
def PStance.toJson (s : PStance) : Json :=
  .obj (optField "filename" (s.filename.map .str) ++
    optField "authors" (s.authors.map .str) ++
    optField "stance" (s.stance.map .str))

/-- JSON for a partial graph. -/
def PGraph.toJson (g : PGraph) : Json :=
  .obj (optField "nodes" (g.nodes.map .arr) ++
    optField "edges" (g.edges.map .arr))

/-- JSON for a partial causal-contradiction object. -/
def PCausal.toJson (c : PCausal) : Json :=
  .obj (optField "central_thesis" (c.central_thesis.map .str) ++
    optField "stances" (c.stances.map (fun l => .arr (l.map PStance.toJson))) ++
    optField "graph" (c.graph.map PGraph.toJson))

/-- JSON for a partial reference-intelligence object. -/
def PRef.toJson (r : PRef) : Json :=
  .obj (optField "recommendation_found" (r.recommendation_found.map .bool) ++
    optField "recommended_paper_title" (r.recommended_paper_title.map .str) ++
    optField "justification" (r.justification.map .str))

/-- JSON for a partial connections item. -/
def PConnection.toJson (c : PConnection) : Json :=
  .obj (optField "field" (c.field.map .str) ++
    optField "connection" (c.connection.map .str))

/-- JSON for a partial construct-analysis object. -/
def PConstructs.toJson (c : PConstructs) : Json :=
  .obj (optField "shared" (c.shared.map (fun l => .arr (l.map .str))) ++
    optField "unique_by_paper" (c.unique_by_paper.map (fun l => .arr (l.map PUniqueItem.toJson))))

/-- JSON for a partial Report: exactly the present keys, in schema order. -/
def PReport.toJson (r : PReport) : Json :=
  .obj (optField "construct_analysis" (r.construct_analysis.map PConstructs.toJson) ++
    optField "paper_summaries" (r.paper_summaries.map (fun l => .arr (l.map PSummary.toJson))) ++
    optField "causal_contradiction" (r.causal_contradiction.map PCausal.toJson) ++
    optField "reference_intelligence" (r.reference_intelligence.map PRef.toJson) ++
    optField "multidisciplinary_connections"
      (r.multidisciplinary_connections.map (fun l => .arr (l.map PConnection.toJson))))

/-! The defaulted display of a partial Report

`expectedRender` states, field by field, which value the rendering block
displays when a field is missing: the empty sequence for every sequence
field, `false` for `recommendation_found`, the empty string for
`recommended_paper_title` and the reference `justification`, and a fixed
placeholder string for every other string field. -/

/-- The construct list shown for a partial unique-constructs item. -/
def expUniqueLines (u : PUniqueItem) : List String :=
  ("**" ++ u.filename.getD "Unknown Paper" ++ "**") ::
    (u.unique.getD []).map (fun s => "- " ++ s)

/-- Bias level shown for a partial summaries item. -/
def expBiasLevel (p : PSummary) : String :=
  match p.bias_assessment with
  | none => "Unknown"
  | some b => b.level.getD "Unknown"

/-- Bias justification shown for a partial summaries item. -/
def expBiasJust (p : PSummary) : String :=
  match p.bias_assessment with
  | none => "No justification"
  | some b => b.justification.getD "No justification"

/-- Lines shown for a partial summaries item. -/
def expSummaryLines (p : PSummary) : List String :=
  ["**" ++ p.filename.getD "Unknown Paper" ++ " (" ++ p.authors.getD "Unknown" ++ ")**",
    "- Summary: " ++ p.summary.getD "No summary provided",
    "- Bias: " ++ expBiasLevel p ++ " (" ++ expBiasJust p ++ ")"]

/-- Line shown for a partial stance item. -/
def expStanceLine (s : PStance) : String :=
  "- " ++ s.filename.getD "Unknown Paper" ++ " (" ++ s.authors.getD "Unknown" ++ "): " ++
    s.stance.getD "No stance"

/-- Line shown for a partial connections item. -/
def expConnectionLine (c : PConnection) : String :=
  "- **" ++ c.field.getD "Unknown" ++ "**: " ++ c.connection.getD "No connection provided"

/-- Shared constructs shown for a partial Report. -/
def expShared (r : PReport) : List String :=
  match r.construct_analysis with
  | none => []
  | some ca => (ca.shared.getD []).map (fun s => "- " ++ s)

/-- Unique-constructs items of a partial Report. -/
def expUniqueItems (r : PReport) : List PUniqueItem :=
  match r.construct_analysis with
  | none => []
  | some ca => ca.unique_by_paper.getD []

/-- Central thesis shown for a partial Report. -/
def expThesis (r : PReport) : String :=
  match r.causal_contradiction with
  | none => "Not provided"
  | some c => c.central_thesis.getD "Not provided"

/-- Stance items of a partial Report. -/
def expStances (r : PReport) : List PStance :=
  match r.causal_contradiction with
  | none => []
  | some c => c.stances.getD []

/-- Graph nodes of a partial Report. -/
def expNodes (r : PReport) : List Json :=
  match r.causal_contradiction with
  | none => []
  | some c =>
    match c.graph with
    | none => []
    | some g => g.nodes.getD []

/-- Graph edges of a partial Report. -/
def expEdges (r : PReport) : List Json :=
  match r.causal_contradiction with
  | none => []
  | some c =>
    match c.graph with
    | none => []
    | some g => g.edges.getD []

/-- Reference-intelligence lines of a partial Report: missing
`recommendation_found` defaults to `false` and yields the fixed fallback
message; a `true` flag shows the title and justification, defaulted to the
empty string. -/
def expReference (r : PReport) : List String :=
  match r.reference_intelligence with
  | none => ["6. Reference Intelligence",
      "No specific paper could be recommended from the references."]
  | some rf =>
    if rf.recommendation_found.getD false then
      ["6. Reference Intelligence",
        "**Recommended Paper:** " ++ rf.recommended_paper_title.getD "",
        rf.justification.getD ""]
    else
      ["6. Reference Intelligence",
        "No specific paper could be recommended from the references."]

/-- Connections items of a partial Report. -/
def expConnections (r : PReport) : List PConnection :=
  r.multidisciplinary_connections.getD []

/-- The full display of a partial Report, defaulting every missing field. -/
def expectedRender (r : PReport) : List String :=
  ("1. Shared Constructs" :: expShared r) ++
  ("2. Unique Constructs by Paper" :: ((expUniqueItems r).map expUniqueLines).flatten) ++
  ("3. Paper Summaries & Bias Assessment" ::
    ((r.paper_summaries.getD []).map expSummaryLines).flatten) ++
  ("4. Causal Contradiction / Stances" :: ("**Central Thesis:** " ++ expThesis r) ::
    (expStances r).map expStanceLine) ++
  ["5. Visual Conflict Graph",
    graph_html (json_dumps (.arr (expNodes r))) (json_dumps (.arr (expEdges r)))] ++
  expReference r ++
  ("7. Multidisciplinary Connections" :: (expConnections r).map expConnectionLine)

/-- An `or`-chained identifier must not be present-but-empty, or the code
falls through to the next alternative; the rendering theorems assume this for
the three `filename` sites. -/
def optNE : Option String → Bool
  | none => true
  | some s => s != ""

/-- No present `filename` field anywhere in the partial Report is the empty
string. -/
def goodFilenamesP (r : PReport) : Bool :=
  (expUniqueItems r).all (fun u => optNE u.filename) &&
  (r.paper_summaries.getD []).all (fun p => optNE p.filename) &&
  (expStances r).all (fun s => optNE s.filename)


/-! Fully-populated Reports (for the round-trip property)

The same Report shape with every field present.  `toPartial` embeds a
complete Report into the partial shape; `toJson` is its JSON document, which
carries every key. -/

/-- Complete bias assessment. -/
structure CBias where
  level : String
  justification : String

/-- Complete summaries item. -/
structure CSummary where
  filename : String
  authors : String
  summary : String
  bias_assessment : CBias

/-- Complete unique-constructs item. -/
structure CUniqueItem where
  filename : String
  unique : List String

/-- Complete stance item. -/
structure CStance where
  filename : String
  authors : String
  stance : String

/-- Complete graph payload (opaque node/edge JSON values). -/
structure CGraph where
  nodes : List Json
  edges : List Json

/-- Complete causal-contradiction object. -/
structure CCausal where
  central_thesis : String
  stances : List CStance
  graph : CGraph

/-- Complete reference-intelligence object. -/
structure CRef where
  recommendation_found : Bool
  recommended_paper_title : String
  justification : String

/-- Complete connections item. -/
structure CConnection where
  field : String
  connection : String

/-- Complete construct-analysis object. -/
structure CConstructs where
  shared : List String
  unique_by_paper : List CUniqueItem

/-- A Report-shaped JSON object with every field present. -/
structure CReport where
  construct_analysis : CConstructs
  paper_summaries : List CSummary
  causal_contradiction : CCausal
  reference_intelligence : CRef
  multidisciplinary_connections : List CConnection

/-- Embed a complete unique-constructs item into the partial shape. -/
def CUniqueItem.toPartial (u : CUniqueItem) : PUniqueItem :=
  ⟨some u.filename, some u.unique⟩

/-- Embed a complete summaries item into the partial shape. -/
def CSummary.toPartial (p : CSummary) : PSummary :=
  ⟨some p.filename, some p.authors, some p.summary,
    some ⟨some p.bias_assessment.level, some p.bias_assessment.justification⟩⟩

/-- Embed a complete stance item into the partial shape. -/
def CStance.toPartial (s : CStance) : PStance :=
  ⟨some s.filename, some s.authors, some s.stance⟩

/-- Embed a complete connections item into the partial shape. -/
def CConnection.toPartial (c : CConnection) : PConnection :=
  ⟨some c.field, some c.connection⟩

/-- Embed a complete Report into the partial shape (every field present). -/
def CReport.toPartial (r : CReport) : PReport :=
  ⟨some ⟨some r.construct_analysis.shared,
      some (r.construct_analysis.unique_by_paper.map CUniqueItem.toPartial)⟩,
    some (r.paper_summaries.map CSummary.toPartial),
    some ⟨some r.causal_contradiction.central_thesis,
      some (r.causal_contradiction.stances.map CStance.toPartial),
      some ⟨some r.causal_contradiction.graph.nodes,
        some r.causal_contradiction.graph.edges⟩⟩,
    some ⟨some r.reference_intelligence.recommendation_found,
      some r.reference_intelligence.recommended_paper_title,
      some r.reference_intelligence.justification⟩,
    some (r.multidisciplinary_connections.map CConnection.toPartial)⟩

/-- The JSON document of a complete Report: every key present. -/
def CReport.toJson (r : CReport) : Json :=
  PReport.toJson r.toPartial

/-- Every `or`-chain-resolved identifier of the complete Report is non-empty
(otherwise the code falls through to a placeholder). -/
def goodFilenamesC (r : CReport) : Bool :=
  r.construct_analysis.unique_by_paper.all (fun u => u.filename != "") &&
  r.paper_summaries.all (fun p => p.filename != "") &&
  r.causal_contradiction.stances.all (fun s => s.filename != "")

/-- Display of one complete unique-constructs item: its strings, verbatim and
in order. -/
def fullUniqueLines (u : CUniqueItem) : List String :=
  ("**" ++ u.filename ++ "**") :: u.unique.map (fun s => "- " ++ s)

/-- Display of one complete summaries item: its strings, verbatim and in
order. -/
def fullSummaryLines (p : CSummary) : List String :=
  ["**" ++ p.filename ++ " (" ++ p.authors ++ ")**",
    "- Summary: " ++ p.summary,
    "- Bias: " ++ p.bias_assessment.level ++ " (" ++ p.bias_assessment.justification ++ ")"]

/-- Display of one complete stance item. -/
def fullStanceLine (s : CStance) : String :=
  "- " ++ s.filename ++ " (" ++ s.authors ++ "): " ++ s.stance

/-- Display of one complete connections item. -/
def fullConnectionLine (c : CConnection) : String :=
  "- **" ++ c.field ++ "**: " ++ c.connection

/-- The display of a complete Report with a positive recommendation: every
literal string of the input appears verbatim, in input (insertion) order,
with no sorting, deduplication or filtering; the graph lists are passed
through as their JSON serialization. -/
def fullExpected (r : CReport) : List String :=
  ("1. Shared Constructs" :: r.construct_analysis.shared.map (fun s => "- " ++ s)) ++
  ("2. Unique Constructs by Paper" ::
    (r.construct_analysis.unique_by_paper.map fullUniqueLines).flatten) ++
  ("3. Paper Summaries & Bias Assessment" ::
    (r.paper_summaries.map fullSummaryLines).flatten) ++
  ("4. Causal Contradiction / Stances" ::
    ("**Central Thesis:** " ++ r.causal_contradiction.central_thesis) ::
    r.causal_contradiction.stances.map fullStanceLine) ++
  ["5. Visual Conflict Graph",
    graph_html (json_dumps (.arr r.causal_contradiction.graph.nodes))
      (json_dumps (.arr r.causal_contradiction.graph.edges))] ++
  ["6. Reference Intelligence",
    "**Recommended Paper:** " ++ r.reference_intelligence.recommended_paper_title,
    r.reference_intelligence.justification] ++
  ("7. Multidisciplinary Connections" ::
    r.multidisciplinary_connections.map fullConnectionLine)

/-! Substring helpers (for stating what an output does or does not carry) -/

/-- Does `hay` start with `pat`? -/
def listStarts : List Char → List Char → Bool
  | _, [] => true
  | [], _ :: _ => false
  | h :: hs, p :: ps => h = p && listStarts hs ps

/-- Does `pat` occur contiguously anywhere in `hay`? -/
def listHasSub (hay pat : List Char) : Bool :=
  listStarts hay pat ||
    match hay with
    | [] => false
    | _ :: t => listHasSub t pat

/-- Does string `pat` occur in string `hay`? -/
def strHasSub (hay pat : String) : Bool :=
  listHasSub hay.toList pat.toList


/-- A concrete fully-populated Report used to instantiate the round-trip
property. -/
def exampleReport : CReport :=
  ⟨⟨["shared-1", "shared-2"], [⟨"u-paper.pdf", ["u-1", "u-2"]⟩]⟩,
   [⟨"sum-paper.pdf", "A. Author", "a summary", ⟨"Low", "bias note"⟩⟩],
   ⟨"the thesis", [⟨"st-paper.pdf", "B. Author", "supports"⟩],
     ⟨[Json.obj [("id", Json.num 1), ("label", Json.str "n1")]],
      [Json.obj [("from", Json.num 1), ("to", Json.num 1)]]⟩⟩,
   ⟨true, "rec title", "rec just"⟩,
   [⟨"Economics", "a link"⟩]⟩

/-- The serialized model reply carrying `exampleReport`. -/
def exampleReplyText : String := json_dumps (CReport.toJson exampleReport)

/-- A fully-populated Report whose `recommendation_found` is `false` but whose
`recommended_paper_title` is the marker string `"T-9"`. -/
def noRecReport : CReport :=
  ⟨⟨["s"], [⟨"U", ["x"]⟩]⟩, [⟨"F", "A", "S", ⟨"L", "J"⟩⟩],
   ⟨"T", [⟨"G", "B", "Z"⟩], ⟨[], []⟩⟩, ⟨false, "T-9", "J-9"⟩, [⟨"D", "C"⟩]⟩

theorem pyLookup_append (l₁ l₂ : List (String × Json)) (k : String) :
    pyLookup (l₁ ++ l₂) k = (pyLookup l₂ k).elim (pyLookup l₁ k) some := by
  induction l₁ with
  | nil => simp [pyLookup]; cases pyLookup l₂ k <;> simp
  | cons p l₁ ih =>
    obtain ⟨k', v⟩ := p
    cases h₂ : pyLookup l₂ k <;> cases h₁ : pyLookup l₁ k <;>
      simp [pyLookup, ih, h₁, h₂]

@[simp] theorem pyLookup_optField_self (k : String) (v : Option Json) :
    pyLookup (optField k v) k = v := by
  cases v <;> simp [optField, pyLookup]

@[simp] theorem pyLookup_optField_ne (k' k : String) (v : Option Json) (h : k' ≠ k) :
    pyLookup (optField k' v) k = none := by
  cases v <;> simp [optField, pyLookup, h]

@[simp] theorem optElim_none_some (o : Option Json) :
    (o.elim none some : Option Json) = o := by cases o <;> rfl

@[simp] theorem pyLookup_nil (k : String) : pyLookup [] k = none := rfl

@[simp] theorem exceptOkBind {ε α β : Type} (a : α) (f : α → Except ε β) :
    (Except.ok a >>= f : Except ε β) = f a := rfl

@[simp] theorem exceptMapOk {ε α β : Type} (f : α → β) (a : α) :
    (f <$> (Except.ok a : Except ε α) : Except ε β) = Except.ok (f a) := rfl

@[simp] theorem exceptPure {ε α : Type} (a : α) :
    (pure a : Except ε α) = Except.ok a := rfl

theorem renderShared_report (r : PReport) :
    renderShared (PReport.toJson r) = .ok ("1. Shared Constructs" :: expShared r) := by
  obtain ⟨ca, ps, cc, ri, mc⟩ := r
  cases ca with
  | none =>
    simp [renderShared, PReport.toJson, pyLookup_append, pyGetD, pyIter, expShared]
  | some c =>
    obtain ⟨sh, ub⟩ := c
    cases sh with
    | none =>
      simp [renderShared, PReport.toJson, PConstructs.toJson, pyLookup_append, pyGetD,
        pyIter, expShared]
    | some l =>
      simp [renderShared, PReport.toJson, PConstructs.toJson, pyLookup_append, pyGetD,
        pyIter, expShared, List.map_map, Function.comp, pyStr]

theorem resolve_filename_eq (fields : List (String × Json)) (o : Option String)
    (h₁ : pyLookup fields "filename" = o.map Json.str)
    (h₂ : pyLookup fields "paper" = none)
    (h₃ : optNE o = true) :
    resolve_filename (.obj fields) = .ok (.str (o.getD "Unknown Paper")) := by
  cases o with
  | none => simp [resolve_filename, pyGet, pyGetD, h₁, h₂, pyOr, pyTruthy]
  | some s =>
    simp only [optNE] at h₃
    simp [resolve_filename, pyGet, pyGetD, h₁, h₂, pyOr, pyTruthy, h₃]

theorem uniqueItemLines_p (u : PUniqueItem) (h : optNE u.filename = true) :
    uniqueItemLines (PUniqueItem.toJson u) = .ok (expUniqueLines u) := by
  obtain ⟨fn, un⟩ := u
  have hfn : resolve_filename (PUniqueItem.toJson ⟨fn, un⟩) =
      .ok (.str (fn.getD "Unknown Paper")) := by
    apply resolve_filename_eq _ fn _ _ h
    · simp [PUniqueItem.toJson, pyLookup_append]
    · simp [PUniqueItem.toJson, pyLookup_append]
  have hc : resolve_constructs (PUniqueItem.toJson ⟨fn, un⟩) =
      .ok (.arr ((un.getD []).map Json.str)) := by
    cases un with
    | none =>
      simp [resolve_constructs, PUniqueItem.toJson, pyGet, pyGetD, pyLookup_append,
        pyOr, pyTruthy]
    | some l =>
      cases l with
      | nil =>
        simp [resolve_constructs, PUniqueItem.toJson, pyGet, pyGetD, pyLookup_append,
          pyOr, pyTruthy]
      | cons x xs =>
        simp [resolve_constructs, PUniqueItem.toJson, pyGet, pyGetD, pyLookup_append,
          pyOr, pyTruthy]
  simp only [uniqueItemLines, hfn, hc, exceptOkBind]
  simp [pyIter, expUniqueLines, pyStr, List.map_map, Function.comp]

theorem summaryLines_p (p : PSummary) (h : optNE p.filename = true) :
    summaryLines (PSummary.toJson p) = .ok (expSummaryLines p) := by
  obtain ⟨fn, au, su, ba⟩ := p
  have hfn : resolve_filename (PSummary.toJson ⟨fn, au, su, ba⟩) =
      .ok (.str (fn.getD "Unknown Paper")) := by
    apply resolve_filename_eq _ fn _ _ h
    · simp [PSummary.toJson, pyLookup_append]
    · simp [PSummary.toJson, pyLookup_append]
  simp only [summaryLines, hfn, exceptOkBind]
  cases ba with
  | none =>
    cases fn <;> cases au <;> cases su <;>
      simp [PSummary.toJson, PBias.toJson, pyGetD, pyLookup_append, pyLookup, optField,
        pyStr, expSummaryLines, expBiasLevel, expBiasJust]
  | some b =>
    obtain ⟨lv, ju⟩ := b
    cases fn <;> cases au <;> cases su <;> cases lv <;> cases ju <;>
      simp [PSummary.toJson, PBias.toJson, pyGetD, pyLookup_append, pyLookup, optField,
        pyStr, expSummaryLines, expBiasLevel, expBiasJust]

theorem stanceLine_p (s : PStance) (h : optNE s.filename = true) :
    stanceLine (PStance.toJson s) = .ok (expStanceLine s) := by
  obtain ⟨fn, au, st⟩ := s
  have hfn : resolve_filename (PStance.toJson ⟨fn, au, st⟩) =
      .ok (.str (fn.getD "Unknown Paper")) := by
    apply resolve_filename_eq _ fn _ _ h
    · simp [PStance.toJson, pyLookup_append]
    · simp [PStance.toJson, pyLookup_append]
  simp only [stanceLine, hfn, exceptOkBind]
  cases fn <;> cases au <;> cases st <;>
    simp [PStance.toJson, pyGetD, pyLookup_append, pyLookup, optField, pyStr,
      expStanceLine]

theorem connectionLine_p (c : PConnection) :
    connectionLine (PConnection.toJson c) = .ok (expConnectionLine c) := by
  obtain ⟨f, co⟩ := c
  cases f <;> cases co <;>
    simp [connectionLine, PConnection.toJson, pyGetD, pyLookup_append, pyLookup, optField,
      pyStr, expConnectionLine]

theorem renderEach_ok {α : Type} (f : Json → Except PyError (List String))
    (emb : α → Json) (g : α → List String) (l : List α)
    (h : ∀ x ∈ l, f (emb x) = .ok (g x)) :
    renderEach f (l.map emb) = .ok ((l.map g).flatten) := by
  induction l with
  | nil => simp [renderEach]
  | cons x xs ih =>
    have hx := h x (by simp)
    have hxs := ih (fun y hy => h y (by simp [hy]))
    simp [renderEach, hx, hxs]

theorem renderLineEach_ok {α : Type} (f : Json → Except PyError String)
    (emb : α → Json) (g : α → String) (l : List α)
    (h : ∀ x ∈ l, f (emb x) = .ok (g x)) :
    renderLineEach f (l.map emb) = .ok (l.map g) := by
  induction l with
  | nil => simp [renderLineEach]
  | cons x xs ih =>
    have hx := h x (by simp)
    have hxs := ih (fun y hy => h y (by simp [hy]))
    simp [renderLineEach, hx, hxs]

theorem renderUnique_report (r : PReport)
    (hg : (expUniqueItems r).all (fun u => optNE u.filename) = true) :
    renderUnique (PReport.toJson r) =
      .ok ("2. Unique Constructs by Paper" :: ((expUniqueItems r).map expUniqueLines).flatten) := by
  obtain ⟨ca, ps, cc, ri, mc⟩ := r
  cases ca with
  | none =>
    simp [renderUnique, PReport.toJson, pyLookup_append, pyGetD, pyIter, expUniqueItems,
      renderEach]
  | some c =>
    obtain ⟨sh, ub⟩ := c
    cases ub with
    | none =>
      simp [renderUnique, PReport.toJson, PConstructs.toJson, pyLookup_append, pyGetD,
        pyIter, expUniqueItems, renderEach]
    | some l =>
      simp only [expUniqueItems, Option.getD_some] at hg
      have hl : ∀ x ∈ l, uniqueItemLines (PUniqueItem.toJson x) = .ok (expUniqueLines x) := by
        intro x hx
        exact uniqueItemLines_p x (by
          have := List.all_eq_true.mp hg x hx
          simpa using this)
      have he := renderEach_ok uniqueItemLines PUniqueItem.toJson expUniqueLines l hl
      simp [renderUnique, PReport.toJson, PConstructs.toJson, pyLookup_append, pyGetD,
        pyIter, expUniqueItems, he]

theorem renderSummaries_report (r : PReport)
    (hg : (r.paper_summaries.getD []).all (fun p => optNE p.filename) = true) :
    renderSummaries (PReport.toJson r) =
      .ok ("3. Paper Summaries & Bias Assessment" ::
        ((r.paper_summaries.getD []).map expSummaryLines).flatten) := by
  obtain ⟨ca, ps, cc, ri, mc⟩ := r
  cases ps with
  | none =>
    simp [renderSummaries, PReport.toJson, pyLookup_append, pyGetD, pyIter, renderEach]
  | some l =>
    simp only [Option.getD_some] at hg ⊢
    have hl : ∀ x ∈ l, summaryLines (PSummary.toJson x) = .ok (expSummaryLines x) := by
      intro x hx
      exact summaryLines_p x (by
        have := List.all_eq_true.mp hg x hx
        simpa using this)
    have he := renderEach_ok summaryLines PSummary.toJson expSummaryLines l hl
    simp [renderSummaries, PReport.toJson, pyLookup_append, pyGetD, pyIter, he]

theorem renderCausal_report (r : PReport)
    (hg : (expStances r).all (fun s => optNE s.filename) = true) :
    renderCausal (PReport.toJson r) =
      .ok ("4. Causal Contradiction / Stances" ::
        ("**Central Thesis:** " ++ expThesis r) :: (expStances r).map expStanceLine) := by
  obtain ⟨ca, ps, cc, ri, mc⟩ := r
  cases cc with
  | none =>
    simp [renderCausal, PReport.toJson, pyLookup_append, pyGetD, pyIter, expThesis,
      expStances, renderLineEach, pyStr]
  | some c =>
    obtain ⟨th, st, gr⟩ := c
    cases st with
    | none =>
      cases th <;>
        simp [renderCausal, PReport.toJson, PCausal.toJson, pyLookup_append, pyGetD,
          pyIter, expThesis, expStances, renderLineEach, pyStr]
    | some l =>
      simp only [expStances, Option.getD_some] at hg
      have hl : ∀ x ∈ l, stanceLine (PStance.toJson x) = .ok (expStanceLine x) := by
        intro x hx
        exact stanceLine_p x (by
          have := List.all_eq_true.mp hg x hx
          simpa using this)
      have he := renderLineEach_ok stanceLine PStance.toJson expStanceLine l hl
      cases th <;>
        simp [renderCausal, PReport.toJson, PCausal.toJson, pyLookup_append, pyGetD,
          pyIter, expThesis, expStances, he, pyStr]

theorem renderGraph_report (r : PReport) :
    renderGraph (PReport.toJson r) =
      .ok ["5. Visual Conflict Graph",
        graph_html (json_dumps (.arr (expNodes r))) (json_dumps (.arr (expEdges r)))] := by
  obtain ⟨ca, ps, cc, ri, mc⟩ := r
  cases cc with
  | none =>
    simp [renderGraph, PReport.toJson, pyLookup_append, pyGetD, expNodes, expEdges]
  | some c =>
    obtain ⟨th, st, gr⟩ := c
    cases gr with
    | none =>
      simp [renderGraph, PReport.toJson, PCausal.toJson, pyLookup_append, pyGetD,
        expNodes, expEdges]
    | some g =>
      obtain ⟨nd, ed⟩ := g
      cases nd <;> cases ed <;>
        simp [renderGraph, PReport.toJson, PCausal.toJson, PGraph.toJson, pyLookup_append,
          pyGetD, expNodes, expEdges]

theorem renderReference_report (r : PReport) :
    renderReference (PReport.toJson r) = .ok (expReference r) := by
  obtain ⟨ca, ps, cc, ri, mc⟩ := r
  cases ri with
  | none =>
    simp [renderReference, PReport.toJson, pyLookup_append, pyGetD, pyTruthy, expReference]
  | some rf =>
    obtain ⟨fd, ti, ju⟩ := rf
    cases fd with
    | none =>
      cases ti <;> cases ju <;>
        simp [renderReference, PReport.toJson, PRef.toJson, pyLookup_append, pyGetD,
          pyTruthy, expReference, pyStr]
    | some b =>
      cases b <;> cases ti <;> cases ju <;>
        simp [renderReference, PReport.toJson, PRef.toJson, pyLookup_append, pyGetD,
          pyTruthy, expReference, pyStr]

theorem renderConnections_report (r : PReport) :
    renderConnections (PReport.toJson r) =
      .ok ("7. Multidisciplinary Connections" :: (expConnections r).map expConnectionLine) := by
  obtain ⟨ca, ps, cc, ri, mc⟩ := r
  cases mc with
  | none =>
    simp [renderConnections, PReport.toJson, pyLookup_append, pyGetD, pyIter,
      expConnections, renderLineEach]
  | some l =>
    have hl : ∀ x ∈ l, connectionLine (PConnection.toJson x) = .ok (expConnectionLine x) :=
      fun x _ => connectionLine_p x
    have he := renderLineEach_ok connectionLine PConnection.toJson expConnectionLine l hl
    simp [renderConnections, PReport.toJson, pyLookup_append, pyGetD, pyIter,
      expConnections, he]

theorem render_report (r : PReport) (hg : goodFilenamesP r = true) :
    render (PReport.toJson r) = .ok (expectedRender r) := by
  simp only [goodFilenamesP, Bool.and_eq_true] at hg
  obtain ⟨⟨h₁, h₂⟩, h₃⟩ := hg
  simp [render, renderShared_report, renderUnique_report r h₁, renderSummaries_report r h₂,
    renderCausal_report r h₃, renderGraph_report, renderReference_report,
    renderConnections_report, expectedRender]

theorem expUniqueLines_toPartial (u : CUniqueItem) :
    expUniqueLines u.toPartial = fullUniqueLines u := by
  simp [expUniqueLines, fullUniqueLines, CUniqueItem.toPartial]

theorem expSummaryLines_toPartial (p : CSummary) :
    expSummaryLines p.toPartial = fullSummaryLines p := by
  simp [expSummaryLines, fullSummaryLines, CSummary.toPartial, expBiasLevel, expBiasJust]

theorem expStanceLine_toPartial (s : CStance) :
    expStanceLine s.toPartial = fullStanceLine s := by
  simp [expStanceLine, fullStanceLine, CStance.toPartial]

theorem expConnectionLine_toPartial (c : CConnection) :
    expConnectionLine c.toPartial = fullConnectionLine c := by
  simp [expConnectionLine, fullConnectionLine, CConnection.toPartial]

theorem render_creport (r : CReport) (hg : goodFilenamesC r = true)
    (hf : r.reference_intelligence.recommendation_found = true) :
    render (CReport.toJson r) = .ok (fullExpected r) := by
  have h1 : goodFilenamesP r.toPartial = true := by
    simp only [goodFilenamesC, Bool.and_eq_true] at hg
    obtain ⟨⟨g1, g2⟩, g3⟩ := hg
    simp only [List.all_eq_true, bne_iff_ne, ne_eq] at g1 g2 g3
    simp [goodFilenamesP, expUniqueItems, expStances, CReport.toPartial, List.all_map,
      Function.comp_def, optNE, CUniqueItem.toPartial, CSummary.toPartial,
      CStance.toPartial]
    exact ⟨⟨g1, g2⟩, g3⟩
  have h2 : expectedRender r.toPartial = fullExpected r := by
    simp [expectedRender, fullExpected, CReport.toPartial, expShared, expUniqueItems,
      expThesis, expStances, expNodes, expEdges, expReference, expConnections, hf,
      List.map_map, Function.comp_def, expUniqueLines_toPartial, expSummaryLines_toPartial,
      expStanceLine_toPartial, expConnectionLine_toPartial]
  rw [CReport.toJson, render_report r.toPartial h1, h2]

theorem firstIdx_lt_length (l : List Char) (t : Char) (i : Nat)
    (h : firstIdx l t = some i) : i < l.length := by
  induction l generalizing i with
  | nil => simp [firstIdx] at h
  | cons c cs ih =>
    by_cases hc : c = t
    · simp [firstIdx, hc] at h
      simp only [List.length_cons]
      omega
    · simp [firstIdx, hc] at h
      obtain ⟨k, hk, rfl⟩ := h
      have := ih k hk
      simp only [List.length_cons]
      omega

theorem firstIdx_get (l : List Char) (t : Char) (i : Nat)
    (h : firstIdx l t = some i) : l[i]? = some t := by
  induction l generalizing i with
  | nil => simp [firstIdx] at h
  | cons c cs ih =>
    by_cases hc : c = t
    · simp [firstIdx, hc] at h
      subst h
      simp [hc]
    · simp [firstIdx, hc] at h
      obtain ⟨k, hk, rfl⟩ := h
      simpa using ih k hk

theorem firstIdx_min (l : List Char) (t : Char) (i : Nat)
    (h : firstIdx l t = some i) : ∀ k < i, l[k]? ≠ some t := by
  induction l generalizing i with
  | nil => simp [firstIdx] at h
  | cons c cs ih =>
    by_cases hc : c = t
    · simp [firstIdx, hc] at h
      omega
    · simp [firstIdx, hc] at h
      obtain ⟨m, hm, rfl⟩ := h
      intro k hk
      cases k with
      | zero => simpa using hc
      | succ k' =>
        have := ih m hm k' (by omega)
        simpa using this

theorem firstIdx_none_iff (l : List Char) (t : Char) :
    firstIdx l t = none ↔ l.contains t = false := by
  induction l with
  | nil => simp [firstIdx]
  | cons c cs ih =>
    by_cases hc : c = t
    · simp [firstIdx, hc]
    · simp [firstIdx, hc, ih, Ne.symm hc]

theorem lastIdx_get (l : List Char) (t : Char) (j : Nat)
    (h : lastIdx l t = some j) : l[j]? = some t := by
  simp only [lastIdx, Option.map_eq_some'] at h
  obtain ⟨k, hk, rfl⟩ := h
  have hlen : k < l.length := by
    have := firstIdx_lt_length _ _ _ hk
    simp only [List.length_reverse] at this
    exact this
  have hget := firstIdx_get _ _ _ hk
  rwa [List.getElem?_reverse hlen] at hget

theorem lastIdx_max (l : List Char) (t : Char) (j : Nat)
    (h : lastIdx l t = some j) : ∀ k, j < k → l[k]? ≠ some t := by
  simp only [lastIdx, Option.map_eq_some'] at h
  obtain ⟨m, hm, rfl⟩ := h
  have hlen : m < l.length := by
    have := firstIdx_lt_length _ _ _ hm
    simpa using this
  intro k hk
  by_cases hkl : k < l.length
  · have hrev : l.reverse[l.length - 1 - k]? = l[k]? := by
      rw [List.getElem?_reverse (by omega)]
      congr 1
      omega
    rw [← hrev]
    exact firstIdx_min _ _ _ hm _ (by omega)
  · rw [List.getElem?_eq_none (by omega)]
    simp

theorem lastIdx_none_iff (l : List Char) (t : Char) :
    lastIdx l t = none ↔ l.contains t = false := by
  simp [lastIdx, firstIdx_none_iff]

theorem strMk_append (a b : List Char) : (⟨a⟩ : String) ++ ⟨b⟩ = ⟨a ++ b⟩ := rfl

theorem extractSpan_substring (s span : String) (h : extractSpan s = some span) :
    ∃ pre post : String, s = pre ++ span ++ post := by
  unfold extractSpan at h
  cases hf : firstIdx s.toList '\x7b' with
  | none => rw [hf] at h; cases h
  | some i =>
    cases hl : lastIdx s.toList '\x7d' with
    | none => rw [hf, hl] at h; cases h
    | some j =>
      rw [hf, hl] at h
      by_cases hij : i < j
      · simp only [hij, if_true, Option.some_inj] at h
        refine ⟨⟨s.toList.take i⟩, ⟨s.toList.drop (j + 1)⟩, ?_⟩
        have hdd : s.toList.drop (j + 1) = (s.toList.drop i).drop (j - i + 1) := by
          rw [List.drop_drop]
          congr 1
          omega
        cases s with
        | mk data =>
          rw [← h, strMk_append, strMk_append]
          congr 1
          rw [hdd]
          simp [List.take_append_drop]
      · simp [hij] at h

theorem extractSpan_firstLast (s span : String) (h : extractSpan s = some span) :
    ∃ i j, i < j ∧ s.toList[i]? = some '\x7b' ∧
      (∀ k < i, s.toList[k]? ≠ some '\x7b') ∧
      s.toList[j]? = some '\x7d' ∧
      (∀ k, j < k → s.toList[k]? ≠ some '\x7d') ∧
      span = ⟨(s.toList.drop i).take (j - i + 1)⟩ := by
  unfold extractSpan at h
  cases hf : firstIdx s.toList '\x7b' with
  | none => rw [hf] at h; cases h
  | some i =>
    cases hl : lastIdx s.toList '\x7d' with
    | none => rw [hf, hl] at h; cases h
    | some j =>
      rw [hf, hl] at h
      by_cases hij : i < j
      · simp only [hij, if_true, Option.some_inj] at h
        exact ⟨i, j, hij, firstIdx_get _ _ _ hf, firstIdx_min _ _ _ hf,
          lastIdx_get _ _ _ hl, lastIdx_max _ _ _ hl, h.symm⟩
      · simp [hij] at h

theorem extractSpan_none_of_unclosed (s : String) (i : Nat)
    (hi : firstIdx s.toList '\x7b' = some i)
    (hnc : (s.toList.drop i).contains '\x7d' = false) :
    extractSpan s = none := by
  unfold extractSpan
  rw [hi]
  cases hl : lastIdx s.toList '\x7d' with
  | none => rfl
  | some j =>
    have hj := lastIdx_get _ _ _ hl
    by_cases hij : i < j
    · exfalso
      have hdrop : (s.toList.drop i)[j - i]? = some '\x7d' := by
        rw [List.getElem?_drop]
        convert hj using 2
        omega
      have hmem : '\x7d' ∈ s.toList.drop i := List.getElem?_mem hdrop
      have : (s.toList.drop i).contains '\x7d' = true := by simpa using hmem
      rw [hnc] at this
      cases this
    · simp [hij]

theorem strFoldlAppend (l : List String) (a : String) :
    l.foldl (· ++ ·) a = a ++ l.foldl (· ++ ·) "" := by
  induction l generalizing a with
  | nil => simp [String.append_empty]
  | cons x xs ih =>
    simp only [List.foldl_cons]
    rw [ih (a ++ x), ih ("" ++ x), String.append_assoc]
    simp

theorem strJoin_cons (x : String) (xs : List String) :
    String.join (x :: xs) = x ++ String.join xs := by
  simp only [String.join, List.foldl_cons]
  rw [strFoldlAppend xs ("" ++ x)]
  simp

theorem pySliceTo_length (s : String) (n : Nat) :
    (pySliceTo s n).length = min n s.length := by
  cases s with
  | mk data => simp [pySliceTo, String.length, List.length_take n data]

theorem foldlCombined (files : List UploadedFile) (acc : String) :
    files.foldl (fun a f => a ++ corpusEntry f) acc =
      acc ++ String.join (files.map corpusEntry) := by
  induction files generalizing acc with
  | nil => simp [String.join, String.append_empty]
  | cons x xs ih =>
    simp only [List.foldl_cons, List.map_cons]
    rw [ih, strJoin_cons, String.append_assoc]

theorem combined_text_join (files : List UploadedFile) :
    combined_text files = String.join (files.map corpusEntry) := by
  unfold combined_text
  rw [foldlCombined]
  simp

theorem corpusEntry_length (f : UploadedFile) :
    (corpusEntry f).length =
      f.name.length + min 8000 (String.join f.pageTexts).length + 18 := by
  simp only [corpusEntry, paper_text, String.length_append, pySliceTo_length]
  have h1 : ("--- Paper: " : String).length = 11 := rfl
  have h2 : (" ---\n" : String).length = 5 := rfl
  have h3 : ("\n\n" : String).length = 2 := rfl
  omega

theorem combined_text_length (files : List UploadedFile) :
    (combined_text files).length =
      (files.map (fun f => f.name.length + min 8000 (String.join f.pageTexts).length + 18)).sum := by
  rw [combined_text_join]
  induction files with
  | nil => rfl
  | cons x xs ih =>
    simp only [List.map_cons, strJoin_cons, String.length_append, List.sum_cons, ih,
      corpusEntry_length]

/-! The claims -/

/-- C1.  For every reply whose extracted brace span parses as a JSON object of
the Report shape with any subset of fields missing at any nesting depth (and
whose present identifier fields are not present-but-empty), `extract` never
fails, `render` never fails, and `render` substitutes the code's defined
default for each missing field.  The defaults are the empty sequence for
every sequence field, `false` for `recommendation_found`, the empty string
for `recommended_paper_title`/`justification`, and a fixed placeholder string
for every other string field — not the empty string, which is the corrected
part of the claim. -/
theorem extract_render_defaults_missing_fields :
    (∀ text span j, extractSpan text = some span → json_loads (pyStrip span) = some j →
      clean_and_parse_json text = .ok j) ∧
    (∀ r : PReport, goodFilenamesP r = true →
      render (PReport.toJson r) = .ok (expectedRender r)) := by
  constructor
  · intro text span j h1 h2
    simp [clean_and_parse_json, h1, h2]
  · exact render_report

/-- Witness for C1 at the reply `"noise \x7b\x7d tail"` and the Report with
every field missing. -/
theorem extract_render_defaults_missing_fields_witness :
    clean_and_parse_json "noise \x7b\x7d tail" = .ok (Json.obj []) ∧
    render (PReport.toJson ⟨none, none, none, none, none⟩) =
      .ok (expectedRender ⟨none, none, none, none, none⟩) :=
  ⟨extract_render_defaults_missing_fields.1 "noise \x7b\x7d tail" "\x7b\x7d" (Json.obj [])
      rfl rfl,
    extract_render_defaults_missing_fields.2 ⟨none, none, none, none, none⟩ rfl⟩

/-- Counterexample to C1 as stated: on the reply `"\x7b\x7d"` (every field
missing) the rendering substitutes the placeholder `"Not provided"` for the
missing `central_thesis`, not the empty string the claim names. -/
theorem render_default_not_empty_string :
    clean_and_parse_json "\x7b\x7d" = .ok (Json.obj []) ∧
    render (Json.obj []) = .ok (expectedRender ⟨none, none, none, none, none⟩) ∧
    (expectedRender ⟨none, none, none, none, none⟩).contains
      "**Central Thesis:** Not provided" = true ∧
    (expectedRender ⟨none, none, none, none, none⟩).contains
      "**Central Thesis:** " = false :=
  ⟨rfl, render_report ⟨none, none, none, none, none⟩ rfl, by decide, by decide⟩

/-- C2.  For every reply text that extracts to a Report-shaped JSON object
with every field present, whose `or`-chain-resolved identifiers are non-empty
and whose `recommendation_found` is `true`, extract-then-render reproduces
every literal string of the input verbatim and in input (insertion) order —
no sorting, deduplication or filtering — with the graph lists passed through
as their JSON serialization. -/
theorem round_trip_complete_report (text : String) (r : CReport)
    (ht : clean_and_parse_json text = .ok (CReport.toJson r))
    (hg : goodFilenamesC r = true)
    (hf : r.reference_intelligence.recommendation_found = true) :
    (clean_and_parse_json text).map render = .ok (.ok (fullExpected r)) := by
  rw [ht]
  show Except.ok (render (CReport.toJson r)) = _
  rw [render_creport r hg hf]

set_option maxRecDepth 100000 in
/-- Witness for C2 at the serialized `exampleReport`. -/
theorem round_trip_complete_report_witness :
    (clean_and_parse_json exampleReplyText).map render =
      .ok (.ok (fullExpected exampleReport)) :=
  round_trip_complete_report exampleReplyText exampleReport rfl rfl rfl

set_option maxRecDepth 100000 in
/-- Counterexample to C2 as stated: `noRecReport` has every field present and
its `recommended_paper_title` is the literal string `"T-9"`, yet no rendered
line contains `"T-9"` — the reference section emits the fixed fallback
because `recommendation_found` is `false`, so not all literal string content
of the input is reproduced. -/
theorem round_trip_loses_title_when_not_found :
    ∃ ls, render (CReport.toJson noRecReport) = .ok ls ∧
      ls.all (fun l => !(strHasSub l "T-9")) = true :=
  ⟨_, rfl, by decide⟩

/-- C3.  Whenever the extractor captures a span, that span runs from the
first `\x7b` of the text to the last `\x7d` (greedy, not balanced-brace
matching); and on the two concatenated objects
`\x7b"a":1\x7d \x7b"b":2\x7d` the whole span is parsed as one JSON document,
which fails with `MalformedJsonError`. -/
theorem greedy_span_and_two_objects :
    (∀ s span, extractSpan s = some span →
      ∃ i j, i < j ∧ s.toList[i]? = some '\x7b' ∧
        (∀ k < i, s.toList[k]? ≠ some '\x7b') ∧
        s.toList[j]? = some '\x7d' ∧
        (∀ k, j < k → s.toList[k]? ≠ some '\x7d') ∧
        span = ⟨(s.toList.drop i).take (j - i + 1)⟩) ∧
    clean_and_parse_json "\x7b\"a\":1\x7d \x7b\"b\":2\x7d" =
      .error (.malformedJson "\x7b\"a\":1\x7d \x7b\"b\":2\x7d") :=
  ⟨extractSpan_firstLast, rfl⟩

/-- Witness for C3 at the text `"a\x7bz\x7db"`, whose span is `"\x7bz\x7d"`. -/
theorem greedy_span_and_two_objects_witness :
    ∃ i j, i < j ∧ ("a\x7bz\x7db" : String).toList[i]? = some '\x7b' ∧
      (∀ k < i, ("a\x7bz\x7db" : String).toList[k]? ≠ some '\x7b') ∧
      ("a\x7bz\x7db" : String).toList[j]? = some '\x7d' ∧
      (∀ k, j < k → ("a\x7bz\x7db" : String).toList[k]? ≠ some '\x7d') ∧
      ("\x7bz\x7d" : String) = ⟨(("a\x7bz\x7db" : String).toList.drop i).take (j - i + 1)⟩ :=
  greedy_span_and_two_objects.1 "a\x7bz\x7db" "\x7bz\x7d" rfl

/-- C4.  `clean_and_parse_json` fails with the no-JSON `ValueError` exactly
when no `\x7b...\x7d` span can be located; in particular any text with no
`\x7b` at all fails that way, with the 500-character excerpt message. -/
theorem nojson_only_when_no_span :
    (∀ s, (∃ m, clean_and_parse_json s = .error (.noJsonFound m)) ↔ extractSpan s = none) ∧
    (∀ s, s.toList.contains '\x7b' = false →
      clean_and_parse_json s = .error (.noJsonFound (noJsonMsg s))) := by
  constructor
  · intro s
    constructor
    · rintro ⟨m, hm⟩
      cases he : extractSpan s with
      | none => rfl
      | some g =>
        exfalso
        simp only [clean_and_parse_json, he] at hm
        cases hj : json_loads (pyStrip g) <;> rw [hj] at hm <;> simp at hm
    · intro he
      exact ⟨noJsonMsg s, by simp [clean_and_parse_json, he]⟩
  · intro s h
    have hf : firstIdx s.data '\x7b' = none := (firstIdx_none_iff _ _).mpr h
    simp [clean_and_parse_json, extractSpan, hf]

/-- Witness for C4 at a braceless text and at a text whose only brace order
yields no span. -/
theorem nojson_only_when_no_span_witness :
    clean_and_parse_json "no braces here" =
      .error (.noJsonFound (noJsonMsg "no braces here")) ∧
    (∃ m, clean_and_parse_json "\x7d x \x7b" = .error (.noJsonFound m)) :=
  ⟨nojson_only_when_no_span.2 "no braces here" (by decide),
    (nojson_only_when_no_span.1 "\x7d x \x7b").mpr rfl⟩

/-- C5.  `uniqueByPaper`, `stances` and `paperSummaries` items accept
`filename`/`paper` for the identifier and (for `uniqueByPaper`)
`unique`/`constructs` for the construct list, resolved by preferring the
first key whose value is present *and truthy* (non-empty) — a first key that
is present but empty is skipped, which is the corrected part of the claim.
The claim's own example `\x7b"paper": "P1", "constructs": ["x"]\x7d` resolves
to filename `"P1"` and construct list `["x"]`. -/
theorem alternate_keys_truthy_preference :
    (∀ s : String, s ≠ "" → ∀ v : Json,
      resolve_filename (.obj [("filename", .str s), ("paper", v)]) = .ok (.str s)) ∧
    (∀ v : Json, pyTruthy v = true →
      resolve_filename (.obj [("paper", v)]) = .ok v) ∧
    (∀ v : Json, pyTruthy v = true →
      resolve_filename (.obj [("filename", .str ""), ("paper", v)]) = .ok v) ∧
    (∀ l : List Json, l ≠ [] → ∀ w : Json,
      resolve_constructs (.obj [("unique", .arr l), ("constructs", w)]) = .ok (.arr l)) ∧
    uniqueItemLines (.obj [("paper", .str "P1"), ("constructs", .arr [.str "x"])]) =
      .ok ["**P1**", "- x"] := by
  have hnull : pyTruthy Json.null = false := rfl
  refine ⟨?_, ?_, ?_, ?_, rfl⟩
  · intro s hs v
    have hts : pyTruthy (Json.str s) = true := by simp [pyTruthy, hs]
    simp [resolve_filename, pyGet, pyGetD, pyLookup, pyOr, hts]
  · intro v hv
    simp [resolve_filename, pyGet, pyGetD, pyLookup, pyOr, hnull, hv]
  · intro v hv
    have hte : pyTruthy (Json.str "") = false := rfl
    simp [resolve_filename, pyGet, pyGetD, pyLookup, pyOr, hte, hv]
  · intro l hl w
    cases l with
    | nil => exact absurd rfl hl
    | cons x xs =>
      have hta : pyTruthy (Json.arr (x :: xs)) = true := rfl
      simp [resolve_constructs, pyGet, pyGetD, pyLookup, pyOr, hta]

/-- Witness for C5 at concrete items for each alternate-key situation. -/
theorem alternate_keys_truthy_preference_witness :
    resolve_filename (.obj [("filename", .str "F"), ("paper", .str "P")]) = .ok (.str "F") ∧
    resolve_filename (.obj [("paper", .str "P")]) = .ok (.str "P") ∧
    resolve_filename (.obj [("filename", .str ""), ("paper", .str "P")]) = .ok (.str "P") ∧
    resolve_constructs (.obj [("unique", .arr [.str "u"]), ("constructs", .arr [.str "c"])]) =
      .ok (.arr [.str "u"]) :=
  ⟨alternate_keys_truthy_preference.1 "F" (by decide) (.str "P"),
    alternate_keys_truthy_preference.2.1 (.str "P") (by decide),
    alternate_keys_truthy_preference.2.2.1 (.str "P") (by decide),
    alternate_keys_truthy_preference.2.2.2.1 [.str "u"] (by simp) (.arr [.str "c"])⟩

/-- Counterexample to C5 as stated: on the item
`\x7b"filename": "", "paper": "P2"\x7d` the first present key is `filename`
with value `""`, yet the code resolves `"P2"` — the `or`-chain prefers the
first *truthy* key, not the first present key. -/
theorem first_present_key_not_preferred :
    resolve_filename (.obj [("filename", .str ""), ("paper", .str "P2")]) =
      .ok (.str "P2") ∧
    ("P2" : String) ≠ "" :=
  ⟨rfl, by decide⟩

/-- C6.  When `recommendation_found` is `false` the Reference Intelligence
section is the fixed fallback message, whatever JSON values the title and
justification hold; when it is `true` the section shows the title and the
justification. -/
theorem reference_fallback_fixed :
    (∀ t j : Json,
      renderReference (.obj [("reference_intelligence",
        .obj [("recommendation_found", .bool false), ("recommended_paper_title", t),
          ("justification", j)])]) =
      .ok ["6. Reference Intelligence",
        "No specific paper could be recommended from the references."]) ∧
    (∀ t j : String,
      renderReference (.obj [("reference_intelligence",
        .obj [("recommendation_found", .bool true), ("recommended_paper_title", .str t),
          ("justification", .str j)])]) =
      .ok ["6. Reference Intelligence", "**Recommended Paper:** " ++ t, j]) := by
  constructor
  · intro t j
    simp [renderReference, pyGetD, pyLookup, pyTruthy, pyStr]
  · intro t j
    simp [renderReference, pyGetD, pyLookup, pyTruthy, pyStr]

/-- C7.  With no upload or fewer than two files the handler stops at the
validation error: no file is read, no corpus or prompt is built, and no model
call is issued. -/
theorem too_few_files_validation :
    generateReport none = .errorTooFew ∧
    (∀ files : List UploadedFile, files.length < 2 →
      generateReport (some files) = .errorTooFew) := by
  refine ⟨rfl, ?_⟩
  intro files h
  simp [generateReport, h]

/-- Witness for C7 at a single uploaded file and at the empty upload list. -/
theorem too_few_files_validation_witness :
    generateReport (some [⟨"only.pdf", ["page text"]⟩]) = .errorTooFew ∧
    generateReport (some []) = .errorTooFew :=
  ⟨too_few_files_validation.2 [⟨"only.pdf", ["page text"]⟩] (by decide),
    too_few_files_validation.2 [] (by decide)⟩

/-- C8.  When the extracted span fails to parse, `clean_and_parse_json`
fails with a `MalformedJsonError` whose carried document is the stripped
span — the substring of the reply that was being parsed — not the whole
reply and not a bounded prefix of it, which is the corrected part of the
claim. -/
theorem malformed_carries_span (text span : String)
    (h1 : extractSpan text = some span)
    (h2 : json_loads (pyStrip span) = none) :
    clean_and_parse_json text = .error (.malformedJson (pyStrip span)) ∧
    ∃ pre post : String, text = pre ++ span ++ post := by
  refine ⟨?_, extractSpan_substring text span h1⟩
  simp [clean_and_parse_json, h1, h2]

/-- Witness for C8 at the reply `"prose \x7bx\x7d tail"`. -/
theorem malformed_carries_span_witness :
    clean_and_parse_json "prose \x7bx\x7d tail" =
      .error (.malformedJson (pyStrip "\x7bx\x7d")) ∧
    ∃ pre post : String, "prose \x7bx\x7d tail" = pre ++ "\x7bx\x7d" ++ post :=
  malformed_carries_span "prose \x7bx\x7d tail" "\x7bx\x7d" rfl rfl

/-- Counterexample to C8 as stated: on the reply `"prose \x7bx\x7d tail"` the
`MalformedJsonError` carries `"\x7bx\x7d"`, which is neither the original
reply text nor a prefix of it (so no bounded prefix of the raw reply is
carried). -/
theorem malformed_doc_not_reply_excerpt :
    clean_and_parse_json "prose \x7bx\x7d tail" = .error (.malformedJson "\x7bx\x7d") ∧
    ("\x7bx\x7d" : String) ≠ "prose \x7bx\x7d tail" ∧
    pySliceTo "prose \x7bx\x7d tail" ("\x7bx\x7d" : String).length ≠ "\x7bx\x7d" :=
  ⟨rfl, by decide, by decide⟩

/-- C9.  The corpus is the ordered concatenation, in upload order, of one
entry per document — the delimiter line naming the file, the page text
truncated to 8000 characters, and two newlines — and its total length is the
sum over documents of (name length + truncated text length + the 18 fixed
delimiter characters), not the bare sum of truncated text lengths, which is
the corrected part of the claim. -/
theorem corpus_concatenation_length (files : List UploadedFile) :
    combined_text files = String.join (files.map corpusEntry) ∧
    (combined_text files).length =
      (files.map (fun f =>
        f.name.length + min 8000 (String.join f.pageTexts).length + 18)).sum :=
  ⟨combined_text_join files, combined_text_length files⟩

/-- Counterexample to C9 as stated: two one-character documents give a corpus
of length 48, not 2 — the corpus length is not the sum of the per-document
truncated text lengths alone. -/
theorem corpus_length_exceeds_truncated_sum :
    (combined_text [⟨"a.pdf", ["x"]⟩, ⟨"b.pdf", ["y"]⟩]).length ≠
      (paper_text ⟨"a.pdf", ["x"]⟩).length + (paper_text ⟨"b.pdf", ["y"]⟩).length := by
  decide

/-- C10.  A text whose first `\x7b` has no `\x7d` at or after it (for example
`"\x7b"`) fails with the no-JSON `ValueError`, not with a JSON decode error:
the regex span needs both an opening brace and a later closing brace. -/
theorem unclosed_brace_nojson (s : String) (i : Nat)
    (hi : firstIdx s.toList '\x7b' = some i)
    (hnc : (s.toList.drop i).contains '\x7d' = false) :
    clean_and_parse_json s = .error (.noJsonFound (noJsonMsg s)) := by
  have he := extractSpan_none_of_unclosed s i hi hnc
  simp [clean_and_parse_json, he]

/-- Witness for C10 at the text `"\x7b"`. -/
theorem unclosed_brace_nojson_witness :
    clean_and_parse_json "\x7b" = .error (.noJsonFound (noJsonMsg "\x7b")) :=
  unclosed_brace_nojson "\x7b" 0 rfl (by decide)
